import Mathlib

/-!
Verification of the CallPilot booking subsystem of StackScout.

The data model is embedded from src/backend/db/migrations/001_callpilot_schema.sql:
UUID columns become Nat, TEXT becomes String, TIMESTAMPTZ becomes Nat,
DOUBLE PRECISION and DECIMAL columns (never inspected by any claim) become
Option Int, and JSONB payloads that the claims treat as opaque stay raw strings
while JSONB string arrays become List String.  Frontend logic is embedded from
the booking form and the call-status page.  Backend router code is absent from
the repository sources; where a claim depends on it, the definition is modelled
from the spec and says so in its doc comment.
-/

namespace StackScout

/-- Row of the providers table (001_callpilot_schema.sql lines 5-16). -/
structure ProviderRow where
  id : Nat
  name : String
  category : String
  phone : String
  address : Option String
  lat : Option Int
  lng : Option Int
  rating : Option Int
  hours : String
  created_at : Nat
deriving DecidableEq

/-- Row of the booking_requests table (001_callpilot_schema.sql lines 19-31). -/
structure BookingRequestRow where
  id : Nat
  service_type : String
  preferred_dates : List String
  preferred_times : List String
  location_lat : Option Int
  location_lng : Option Int
  max_distance_miles : Int
  notes : Option String
  status : String
  created_at : Nat
  updated_at : Nat
deriving DecidableEq

/-- Row of the calls table (001_callpilot_schema.sql lines 34-49). -/
structure CallRow where
  id : Nat
  request_id : Option Nat
  provider_id : Option Nat
  twilio_call_sid : Option String
  elevenlabs_conversation_id : Option String
  status : String
  outcome : Option String
  transcript : String
  available_slots : String
  booked_slot : Option String
  score : Option Int
  duration_seconds : Option Int
  created_at : Nat
  updated_at : Nat
deriving DecidableEq

/-- Row of the bookings table (001_callpilot_schema.sql lines 52-62). -/
structure BookingRow where
  id : Nat
  request_id : Option Nat
  call_id : Option Nat
  provider_id : Option Nat
  appointment_datetime : Nat
  confirmation_number : Option String
  calendar_event_id : Option String
  status : String
  created_at : Nat
deriving DecidableEq

/-- The four CallPilot tables as one database state. -/
structure DB where
  providers : List ProviderRow
  booking_requests : List BookingRequestRow
  calls : List CallRow
  bookings : List BookingRow
deriving DecidableEq

/-- Action of calls.provider_id ON DELETE SET NULL (schema line 37). -/
def nullCallProvider (pid : Nat) (c : CallRow) : CallRow :=
  if c.provider_id = some pid then { c with provider_id := none } else c

/-- Action of bookings.provider_id ON DELETE SET NULL (schema line 56). -/
def nullBookingProvider (pid : Nat) (b : BookingRow) : BookingRow :=
  if b.provider_id = some pid then { b with provider_id := none } else b

/-- Deleting a provider row: the two referencing columns are declared
ON DELETE SET NULL, so dependent calls and bookings survive with the
reference nulled (schema lines 37 and 56). -/
def deleteProvider (db : DB) (pid : Nat) : DB :=
  { db with
    providers := db.providers.filter (fun p => decide (p.id ≠ pid))
    calls := db.calls.map (nullCallProvider pid)
    bookings := db.bookings.map (nullBookingProvider pid) }

/-- Deleting a booking_requests row: calls.request_id and bookings.request_id
are declared ON DELETE CASCADE (schema lines 36 and 54), so owned calls and
bookings are deleted with the request. -/
def deleteBookingRequest (db : DB) (rid : Nat) : DB :=
  { db with
    booking_requests := db.booking_requests.filter (fun r => decide (r.id ≠ rid))
    calls := db.calls.filter (fun c => decide (c.request_id ≠ some rid))
    bookings := db.bookings.filter (fun b => decide (b.request_id ≠ some rid)) }

/-- Action of bookings.call_id ON DELETE SET NULL (schema line 55). -/
def nullBookingCall (cid : Nat) (b : BookingRow) : BookingRow :=
  if b.call_id = some cid then { b with call_id := none } else b

/-- Deleting a calls row: bookings.call_id is ON DELETE SET NULL
(schema line 55), so the booking survives with call_id nulled. -/
def deleteCall (db : DB) (cid : Nat) : DB :=
  { db with
    calls := db.calls.filter (fun c => decide (c.id ≠ cid))
    bookings := db.bookings.map (nullBookingCall cid) }

/-- All fields of a call other than provider_id agree. -/
def callFrameExceptProvider (c c' : CallRow) : Prop :=
  c'.id = c.id ∧ c'.request_id = c.request_id ∧
  c'.twilio_call_sid = c.twilio_call_sid ∧
  c'.elevenlabs_conversation_id = c.elevenlabs_conversation_id ∧
  c'.status = c.status ∧ c'.outcome = c.outcome ∧
  c'.transcript = c.transcript ∧ c'.available_slots = c.available_slots ∧
  c'.booked_slot = c.booked_slot ∧ c'.score = c.score ∧
  c'.duration_seconds = c.duration_seconds ∧
  c'.created_at = c.created_at ∧ c'.updated_at = c.updated_at

/-- All fields of a booking other than provider_id agree. -/
def bookingFrameExceptProvider (b b' : BookingRow) : Prop :=
  b'.id = b.id ∧ b'.request_id = b.request_id ∧ b'.call_id = b.call_id ∧
  b'.appointment_datetime = b.appointment_datetime ∧
  b'.confirmation_number = b.confirmation_number ∧
  b'.calendar_event_id = b.calendar_event_id ∧
  b'.status = b.status ∧ b'.created_at = b.created_at

/-- All fields of a booking other than call_id agree. -/
def bookingFrameExceptCall (b b' : BookingRow) : Prop :=
  b'.id = b.id ∧ b'.request_id = b.request_id ∧ b'.provider_id = b.provider_id ∧
  b'.appointment_datetime = b.appointment_datetime ∧
  b'.confirmation_number = b.confirmation_number ∧
  b'.calendar_event_id = b.calendar_event_id ∧
  b'.status = b.status ∧ b'.created_at = b.created_at

/-- Example database used to instantiate the general theorems. -/
def exProvider : ProviderRow :=
  { id := 7, name := "Demo Dental Clinic", category := "dentist",
    phone := "+15550100", address := some "123 Main St", lat := none,
    lng := none, rating := some 45, hours := "{}", created_at := 0 }

def exRequest : BookingRequestRow :=
  { id := 3, service_type := "dentist", preferred_dates := ["2025-01-15"],
    preferred_times := ["morning"], location_lat := none, location_lng := none,
    max_distance_miles := 10, notes := none, status := "completed",
    created_at := 0, updated_at := 5 }

def exCall : CallRow :=
  { id := 1, request_id := some 3, provider_id := some 7,
    twilio_call_sid := some "CA1", elevenlabs_conversation_id := some "EL1",
    status := "completed", outcome := some "booked", transcript := "[]",
    available_slots := "[]", booked_slot := some "2025-01-15T10:00",
    score := some 90, duration_seconds := some 120, created_at := 1,
    updated_at := 4 }

def exBooking : BookingRow :=
  { id := 2, request_id := some 3, call_id := some 1, provider_id := some 7,
    appointment_datetime := 100, confirmation_number := some "CONF123",
    calendar_event_id := none, status := "confirmed", created_at := 4 }

def exDB : DB :=
  { providers := [exProvider], booking_requests := [exRequest],
    calls := [exCall], bookings := [exBooking] }

/-- The booking_requests.status values documented at schema line 28. -/
def bookingRequestStatuses : List String := ["pending", "calling", "completed", "failed"]

/-- The calls.status values documented at schema line 40. -/
def callStatuses : List String :=
  ["pending", "ringing", "in_progress", "completed", "failed", "no_answer"]

/-- The calls.outcome values documented at schema line 41. -/
def callOutcomes : List String :=
  ["booked", "no_slots", "callback_requested", "voicemail", "failed"]

/-- A call status that is not terminal (spec section 4.1: terminal states are
completed, failed and no_answer). -/
def nonTerminalCall (s : String) : Bool :=
  s == "pending" || s == "ringing" || s == "in_progress"

/-- Insert payload for booking_requests: a column left as none takes the
schema default of its line (lines 20-30). -/
structure BookingRequestInsert where
  service_type : String
  preferred_dates : Option (List String) := none
  preferred_times : Option (List String) := none
  location_lat : Option Int := none
  location_lng : Option Int := none
  max_distance_miles : Option Int := none
  notes : Option String := none
  status : Option String := none
deriving DecidableEq

/-- The stored booking_requests row for an insert: defaults are those of the
schema, in particular status defaults to the literal pending (line 28); the
status column is plain TEXT, so an explicitly supplied value is stored as
given. -/
def mkBookingRequestRow (ins : BookingRequestInsert) (newId now : Nat) :
    BookingRequestRow :=
  { id := newId
    service_type := ins.service_type
    preferred_dates := ins.preferred_dates.getD []
    preferred_times := ins.preferred_times.getD []
    location_lat := ins.location_lat
    location_lng := ins.location_lng
    max_distance_miles := ins.max_distance_miles.getD 10
    notes := ins.notes
    status := ins.status.getD "pending"
    created_at := now
    updated_at := now }

def insertBookingRequest (db : DB) (ins : BookingRequestInsert) (newId now : Nat) : DB :=
  { db with booking_requests := mkBookingRequestRow ins newId now :: db.booking_requests }

/-- Insert payload for a new call attempt. -/
structure CallInsert where
  provider_id : Option Nat := none
  twilio_call_sid : Option String := none
  elevenlabs_conversation_id : Option String := none
deriving DecidableEq

/-- The stored calls row for a fresh attempt: status defaults to pending and
outcome to null (schema lines 40-41), transcript and available_slots default
to empty arrays (lines 42-43). -/
def mkCallRow (rid : Nat) (ins : CallInsert) (newId now : Nat) : CallRow :=
  { id := newId
    request_id := some rid
    provider_id := ins.provider_id
    twilio_call_sid := ins.twilio_call_sid
    elevenlabs_conversation_id := ins.elevenlabs_conversation_id
    status := "pending"
    outcome := none
    transcript := "[]"
    available_slots := "[]"
    booked_slot := none
    score := none
    duration_seconds := none
    created_at := now
    updated_at := now }

/-- Whether some call of the request is still non-terminal. -/
def hasActiveCall (db : DB) (rid : Nat) : Bool :=
  db.calls.any (fun c => c.request_id == some rid && nonTerminalCall c.status)

/-- Number of non-terminal calls belonging to the request. -/
def nonTerminalCount (db : DB) (rid : Nat) : Nat :=
  (db.calls.filter (fun c => c.request_id == some rid && nonTerminalCall c.status)).length

/-- Modelled from the spec: the Dispatcher call-issuing boundary (spec
sections 4.3 and 5); the backend booking router and service code is not
among the repository sources, only the schema it writes to is.  Dispatch is
rejected while a non-terminal call exists for the request; otherwise the
call row is created in status pending and the request is moved to status
calling. -/
def dispatchCall (db : DB) (rid : Nat) (ins : CallInsert) (newId now : Nat) :
    Except String DB :=
  if hasActiveCall db rid then .error "already in flight"
  else .ok
    { db with
      calls := mkCallRow rid ins newId now :: db.calls
      booking_requests := db.booking_requests.map
        (fun r => if r.id = rid then { r with status := "calling", updated_at := now } else r) }

/-! Client-side model of the call-status page (src/unnamed/part_013). -/

structure ClientProviderInfo where
  name : String
  phone : String
  address : Option String := none
deriving DecidableEq

structure TranscriptItem where
  speaker : String
  text : String
deriving DecidableEq

structure ClientSlot where
  date : String
  time : String
  notes : Option String := none
deriving DecidableEq

structure BookedSlot where
  datetime : String
  confirmation_number : Option String := none
deriving DecidableEq

/-- The Call interface of the status page. -/
structure ClientCall where
  id : String
  status : String
  outcome : Option String := none
  providers : Option ClientProviderInfo := none
  transcript : Option (List TranscriptItem) := none
  available_slots : Option (List ClientSlot) := none
  booked_slot : Option BookedSlot := none
  duration_seconds : Option Int := none
deriving DecidableEq

structure ClientBooking where
  appointment_datetime : String
  confirmation_number : Option String := none
  providers : Option ClientProviderInfo := none
deriving DecidableEq

/-- The BookingStatus interface: the payload of the status fetch. -/
structure BookingStatusPayload where
  id : String
  status : String
  service_type : String
  calls : List ClientCall
  booking : Option ClientBooking := none
deriving DecidableEq

structure StatusDisplayEntry where
  label : String
  color : String
  icon : String
deriving DecidableEq

/-- The STATUS_DISPLAY record of part_013 (lines 35-42), as the association
list of its keys in source order. -/
def STATUS_DISPLAY : List (String × StatusDisplayEntry) :=
  [("pending", { label := "Preparing call...", color := "text-muted-foreground", icon := "" }),
   ("ringing", { label := "Ringing...", color := "text-yellow-500", icon := "" }),
   ("in_progress", { label := "Call in progress", color := "text-blue-500", icon := "" }),
   ("completed", { label := "Call completed", color := "text-green-500", icon := "" }),
   ("failed", { label := "Call failed", color := "text-destructive", icon := "" }),
   ("no_answer", { label := "No answer", color := "text-orange-500", icon := "" })]

/-- Property access STATUS_DISPLAY[s]: undefined becomes none. -/
def statusDisplayGet (s : String) : Option StatusDisplayEntry :=
  (STATUS_DISPLAY.find? (fun e => e.1 == s)).map Prod.snd

/-- The entry STATUS_DISPLAY.pending used as fallback. -/
def pendingDisplay : StatusDisplayEntry :=
  { label := "Preparing call...", color := "text-muted-foreground", icon := "" }

/-- currentCall of part_013 line 83: the optional-chained first call. -/
def currentCallOf (st : Option BookingStatusPayload) : Option ClientCall :=
  match st with
  | none => none
  | some s => s.calls.head?

/-- callStatus of part_013 line 84: the display entry of the current call
with fallback to the pending entry on unknown status or absent call. -/
def callStatusOf (st : Option BookingStatusPayload) : StatusDisplayEntry :=
  match currentCallOf st with
  | some c => (statusDisplayGet c.status).getD pendingDisplay
  | none => pendingDisplay

/-- fetchStatus result of part_013 lines 53-69 as the stop signal of the
2-second polling loop: none models a failed fetch (the catch returns true),
some d a successful fetch, where polling stops when the payload has a
booking or its status is completed. -/
def fetchShouldStop : Option BookingStatusPayload → Bool
  | none => true
  | some d => d.booking.isSome || d.status == "completed"

/-! Client-side model of the booking form (src/unnamed/part_015). -/

/-- handleDateToggle of part_015 lines 55-59. -/
def handleDateToggle (date : String) (prev : List String) : List String :=
  if prev.contains date then prev.filter (fun d => d != date) else prev ++ [date]

/-- handleTimeToggle of part_015 lines 61-65. -/
def handleTimeToggle (time : String) (prev : List String) : List String :=
  if prev.contains time then prev.filter (fun t => t != time) else prev ++ [time]

/-- The id field of the response of POST /api/booking/start. -/
structure BookingStartResponse where
  id : String
deriving DecidableEq

/-- Observable effects of one handleSubmit run: the error state set, the
URLs fetched in order, and the navigation target. -/
structure SubmitEffects where
  error : Option String
  requests : List String
  navigatedTo : Option String
deriving DecidableEq

def bookingStartUrl : String := "/api/booking/start"

/-- handleSubmit of part_015 lines 81-126.  The two fetch responses are
inputs: startResp is none when the first response is not ok (the throw at
line 106), callOk is false when the second is not ok (line 116).  An empty
serviceType is falsy, so the guard at line 85 sets the error and returns
before any fetch. -/
def handleSubmit (serviceType : String)
    (startResp : Option BookingStartResponse) (callOk : Bool) : SubmitEffects :=
  if serviceType = "" then
    { error := some "Please select a service type", requests := [], navigatedTo := none }
  else
    match startResp with
    | none =>
      { error := some "Failed to create booking request",
        requests := [bookingStartUrl], navigatedTo := none }
    | some booking =>
      if callOk then
        { error := none
          requests := [bookingStartUrl, "/api/booking/" ++ booking.id ++ "/call"]
          navigatedTo := some ("/calling/" ++ booking.id) }
      else
        { error := some "Failed to initiate call"
          requests := [bookingStartUrl, "/api/booking/" ++ booking.id ++ "/call"]
          navigatedTo := none }

/-! The status-projection read. -/

/-- Insert a call into a list sorted newest-first by created_at. -/
def insertNewestFirst (c : CallRow) : List CallRow → List CallRow
  | [] => [c]
  | d :: ds =>
    if d.created_at ≤ c.created_at then c :: d :: ds
    else d :: insertNewestFirst c ds

/-- Sort calls newest-first by created_at (the order the projection returns). -/
def sortNewestFirst : List CallRow → List CallRow
  | [] => []
  | c :: cs => insertNewestFirst c (sortNewestFirst cs)

/-- The calls owned by a request. -/
def requestCalls (db : DB) (rid : Nat) : List CallRow :=
  db.calls.filter (fun c => c.request_id == some rid)

/-- The merged view served to the polling client. -/
structure BookingStatusView where
  request : BookingRequestRow
  calls : List CallRow
  booking : Option BookingRow
deriving DecidableEq

/-- Modelled from the spec: the Status Projection read of GET /api/booking
for one request (spec section 4.4); the backend booking router serving it is
not among the repository sources.  A nonexistent request id yields none (the
distinct not-found condition); otherwise the view carries the request, its
calls ordered newest-first, and the booking if any. -/
def getBookingStatus (db : DB) (rid : Nat) : Option BookingStatusView :=
  match db.booking_requests.find? (fun r => r.id == rid) with
  | none => none
  | some req => some
    { request := req
      calls := sortNewestFirst (requestCalls db rid)
      booking := db.bookings.find? (fun b => b.request_id == some rid && b.status != "cancelled") }

/-- A fetched payload whose request failed with no booking. -/
def exFailedPayload : BookingStatusPayload :=
  { id := "r1", status := "failed", service_type := "dentist",
    calls := [], booking := none }

/-- A current call carrying a status string outside the display record. -/
def exVoicemailCall : ClientCall := { id := "c1", status := "voicemail" }

def exVoicemailPayload : BookingStatusPayload :=
  { id := "r1", status := "calling", service_type := "dentist",
    calls := [exVoicemailCall], booking := none }

theorem nullCallProvider_frame (pid : Nat) (c : CallRow) :
    callFrameExceptProvider c (nullCallProvider pid c) ∧
    (nullCallProvider pid c).provider_id =
      (if c.provider_id = some pid then none else c.provider_id) := by
  unfold nullCallProvider callFrameExceptProvider
  by_cases h : c.provider_id = some pid <;> simp [h]

theorem nullBookingProvider_frame (pid : Nat) (b : BookingRow) :
    bookingFrameExceptProvider b (nullBookingProvider pid b) ∧
    (nullBookingProvider pid b).provider_id =
      (if b.provider_id = some pid then none else b.provider_id) := by
  unfold nullBookingProvider bookingFrameExceptProvider
  by_cases h : b.provider_id = some pid <;> simp [h]

theorem nullBookingCall_frame (cid : Nat) (b : BookingRow) :
    bookingFrameExceptCall b (nullBookingCall cid b) ∧
    (nullBookingCall cid b).call_id =
      (if b.call_id = some cid then none else b.call_id) := by
  unfold nullBookingCall bookingFrameExceptCall
  by_cases h : b.call_id = some cid <;> simp [h]

/-- C2: deleting a Provider keeps every dependent call and booking row: the
row counts of calls and bookings are unchanged, and each previous call or
booking still exists with provider_id nulled exactly when it referenced the
deleted provider and all other fields untouched. -/
theorem provider_delete_preserves_history (db : DB) (pid : Nat) :
    (deleteProvider db pid).calls.length = db.calls.length ∧
    (deleteProvider db pid).bookings.length = db.bookings.length ∧
    (∀ c ∈ db.calls, ∃ c' ∈ (deleteProvider db pid).calls,
      callFrameExceptProvider c c' ∧
      c'.provider_id = (if c.provider_id = some pid then none else c.provider_id)) ∧
    (∀ b ∈ db.bookings, ∃ b' ∈ (deleteProvider db pid).bookings,
      bookingFrameExceptProvider b b' ∧
      b'.provider_id = (if b.provider_id = some pid then none else b.provider_id)) := by
  refine ⟨by simp [deleteProvider], by simp [deleteProvider], ?_, ?_⟩
  · intro c hc
    exact ⟨nullCallProvider pid c,
      List.mem_map_of_mem (nullCallProvider pid) hc,
      nullCallProvider_frame pid c⟩
  · intro b hb
    exact ⟨nullBookingProvider pid b,
      List.mem_map_of_mem (nullBookingProvider pid) hb,
      nullBookingProvider_frame pid b⟩

/-- Witness for C2 at the example database. -/
theorem provider_delete_preserves_history_w :
    ∃ c' ∈ (deleteProvider exDB 7).calls,
      callFrameExceptProvider exCall c' ∧
      c'.provider_id = (if exCall.provider_id = some 7 then none else exCall.provider_id) :=
  (provider_delete_preserves_history exDB 7).2.2.1 exCall (by decide)

/-- C3: deleting a BookingRequest cascades to its calls and bookings (no
owned row survives, rows of other requests all survive), while deleting a
Call never deletes a booking: the booking count is unchanged and each
booking survives with call_id nulled exactly when it referenced the deleted
call. -/
theorem request_delete_cascades (db : DB) (rid cid : Nat) :
    (∀ c ∈ (deleteBookingRequest db rid).calls, c.request_id ≠ some rid) ∧
    (∀ c ∈ db.calls, c.request_id ≠ some rid → c ∈ (deleteBookingRequest db rid).calls) ∧
    (∀ b ∈ (deleteBookingRequest db rid).bookings, b.request_id ≠ some rid) ∧
    (∀ b ∈ db.bookings, b.request_id ≠ some rid → b ∈ (deleteBookingRequest db rid).bookings) ∧
    (deleteCall db cid).bookings.length = db.bookings.length ∧
    (∀ b ∈ db.bookings, ∃ b' ∈ (deleteCall db cid).bookings,
      bookingFrameExceptCall b b' ∧
      b'.call_id = (if b.call_id = some cid then none else b.call_id)) := by
  refine ⟨?_, ?_, ?_, ?_, by simp [deleteCall], ?_⟩
  · intro c hc
    simp [deleteBookingRequest, List.mem_filter] at hc
    exact hc.2
  · intro c hc h
    simp [deleteBookingRequest, List.mem_filter]
    exact ⟨hc, h⟩
  · intro b hb
    simp [deleteBookingRequest, List.mem_filter] at hb
    exact hb.2
  · intro b hb h
    simp [deleteBookingRequest, List.mem_filter]
    exact ⟨hb, h⟩
  · intro b hb
    exact ⟨nullBookingCall cid b,
      List.mem_map_of_mem (nullBookingCall cid) hb,
      nullBookingCall_frame cid b⟩

/-- Witness for C3 at the example database. -/
theorem request_delete_cascades_w :
    ∃ b' ∈ (deleteCall exDB 1).bookings,
      bookingFrameExceptCall exBooking b' ∧
      b'.call_id = (if exBooking.call_id = some 1 then none else exBooking.call_id) :=
  (request_delete_cascades exDB 3 1).2.2.2.2.2 exBooking (by decide)

theorem hasActiveCall_false_count (db : DB) (rid : Nat)
    (h : hasActiveCall db rid = false) : nonTerminalCount db rid = 0 := by
  unfold hasActiveCall at h
  unfold nonTerminalCount
  rw [List.length_eq_zero, List.filter_eq_nil_iff]
  intro c hc
  rw [List.any_eq_false] at h
  simpa using h c hc

/-- C1: dispatching while a non-terminal call exists for the request is
rejected with the already-in-flight error, and whenever a dispatch succeeds
the resulting state has at most one non-terminal call for that request, so
a second non-terminal call is never created. -/
theorem dispatch_serializes_calls (db : DB) (rid : Nat) (ins : CallInsert)
    (newId now : Nat) :
    (hasActiveCall db rid = true →
      dispatchCall db rid ins newId now = .error "already in flight") ∧
    (∀ db', dispatchCall db rid ins newId now = .ok db' →
      nonTerminalCount db' rid ≤ 1) := by
  constructor
  · intro h
    simp [dispatchCall, h]
  · intro db' h
    by_cases hact : hasActiveCall db rid
    · simp [dispatchCall, hact] at h
    · simp only [Bool.not_eq_true] at hact
      simp only [dispatchCall, hact, Bool.false_eq_true, if_false, Except.ok.injEq] at h
      subst h
      have h0 := hasActiveCall_false_count db rid hact
      unfold nonTerminalCount at h0 ⊢
      simp only [List.filter_cons]
      have : ((mkCallRow rid ins newId now).request_id == some rid &&
          nonTerminalCall (mkCallRow rid ins newId now).status) = true := by
        simp [mkCallRow, nonTerminalCall]
      rw [if_pos this, List.length_cons, h0]

/-- Witness for C1: with a ringing call in flight the dispatch errors, and a
dispatch from the terminal-only example database leaves one non-terminal
call. -/
theorem dispatch_serializes_calls_w :
    dispatchCall
      { exDB with calls := [{ exCall with status := "ringing" }] } 3
      {} 9 9 = .error "already in flight" ∧
    nonTerminalCount
      { exDB with
        calls := mkCallRow 3 {} 9 9 :: exDB.calls
        booking_requests := exDB.booking_requests.map
          (fun r => if r.id = 3 then { r with status := "calling", updated_at := 9 } else r) } 3 ≤ 1 :=
  ⟨(dispatch_serializes_calls
      { exDB with calls := [{ exCall with status := "ringing" }] } 3 {} 9 9).1 (by decide),
   (dispatch_serializes_calls exDB 3 {} 9 9).2 _ (by rfl)⟩

theorem mem_insertNewestFirst (c x : CallRow) (l : List CallRow) :
    x ∈ insertNewestFirst c l ↔ x = c ∨ x ∈ l := by
  induction l with
  | nil => simp [insertNewestFirst]
  | cons d ds ih =>
    unfold insertNewestFirst
    by_cases h : d.created_at ≤ c.created_at
    · simp [h]
    · simp [h, ih]
      tauto

theorem pairwise_insertNewestFirst (c : CallRow) (l : List CallRow)
    (h : l.Pairwise (fun a b => b.created_at ≤ a.created_at)) :
    (insertNewestFirst c l).Pairwise (fun a b => b.created_at ≤ a.created_at) := by
  induction l with
  | nil => simp [insertNewestFirst]
  | cons d ds ih =>
    rw [List.pairwise_cons] at h
    obtain ⟨hd, hds⟩ := h
    unfold insertNewestFirst
    by_cases hc : d.created_at ≤ c.created_at
    · rw [if_pos hc, List.pairwise_cons, List.pairwise_cons]
      refine ⟨?_, hd, hds⟩
      intro x hx
      rcases List.mem_cons.mp hx with rfl | hx
      · exact hc
      · exact le_trans (hd x hx) hc
    · rw [if_neg hc, List.pairwise_cons]
      constructor
      · intro x hx
        rcases (mem_insertNewestFirst c x ds).mp hx with rfl | hx
        · exact le_of_not_le hc
        · exact hd x hx
      · exact ih hds

theorem pairwise_sortNewestFirst (l : List CallRow) :
    (sortNewestFirst l).Pairwise (fun a b => b.created_at ≤ a.created_at) := by
  induction l with
  | nil => simp [sortNewestFirst]
  | cons c cs ih => exact pairwise_insertNewestFirst c _ ih

theorem mem_sortNewestFirst (x : CallRow) (l : List CallRow) :
    x ∈ sortNewestFirst l ↔ x ∈ l := by
  induction l with
  | nil => simp [sortNewestFirst]
  | cons c cs ih => simp [sortNewestFirst, mem_insertNewestFirst, ih]

/-- C5: the status read is distinct on a nonexistent id (none), while for an
existing request it returns the request plus exactly its calls ordered
newest-first; zero calls yield the view with the empty call list, and the
client renders the pending display for an empty call list rather than an
error. -/
theorem status_projection_read (db : DB) (rid : Nat) :
    (db.booking_requests.find? (fun r => r.id == rid) = none →
      getBookingStatus db rid = none) ∧
    (∀ req, db.booking_requests.find? (fun r => r.id == rid) = some req →
      ∃ view, getBookingStatus db rid = some view ∧
        view.request = req ∧
        (∀ c, c ∈ view.calls ↔ c ∈ db.calls ∧ c.request_id = some rid) ∧
        view.calls.Pairwise (fun a b => b.created_at ≤ a.created_at) ∧
        (requestCalls db rid = [] → view.calls = [])) ∧
    (∀ p : BookingStatusPayload, p.calls = [] →
      callStatusOf (some p) = pendingDisplay) := by
  refine ⟨?_, ?_, ?_⟩
  · intro h
    unfold getBookingStatus
    rw [h]
  · intro req h
    have hview : getBookingStatus db rid = some
        { request := req
          calls := sortNewestFirst (requestCalls db rid)
          booking := db.bookings.find?
            (fun b => b.request_id == some rid && b.status != "cancelled") } := by
      unfold getBookingStatus
      rw [h]
    refine ⟨_, hview, rfl, ?_, pairwise_sortNewestFirst _, ?_⟩
    · intro c
      simp [mem_sortNewestFirst, requestCalls, List.mem_filter]
    · intro h0
      show sortNewestFirst (requestCalls db rid) = []
      rw [h0]
      rfl
  · intro p hp
    simp [callStatusOf, currentCallOf, hp]

/-- Witness for C5 at the example database: request 3 exists with one call. -/
theorem status_projection_read_w :
    ∃ view, getBookingStatus exDB 3 = some view ∧
      view.request = exRequest ∧
      (∀ c, c ∈ view.calls ↔ c ∈ exDB.calls ∧ c.request_id = some 3) ∧
      view.calls.Pairwise (fun a b => b.created_at ≤ a.created_at) ∧
      (requestCalls exDB 3 = [] → view.calls = []) :=
  (status_projection_read exDB 3).2.1 exRequest (by decide)

/-- C4 counterexample: the status column is plain TEXT with no CHECK
constraint, so an insert that explicitly supplies a value outside the
documented set stores it: a row with status bogus is persisted. -/
theorem status_sets_unenforced_cex :
    ∃ r ∈ (insertBookingRequest exDB
        { service_type := "dentist", status := some "bogus" } 8 0).booking_requests,
      r.status ∉ bookingRequestStatuses := by
  decide

/-- C4 amended: rows written through the schema defaults stay inside the
documented sets: an insert that omits status stores the literal pending,
which is in the documented set, and a freshly created call has outcome null
while its status pending is non-terminal; the sets themselves are only
documented in comments, not enforced by a column constraint. -/
theorem insert_defaults_in_documented_sets (ins : BookingRequestInsert)
    (h : ins.status = none) (rid : Nat) (cins : CallInsert) (n1 t1 n2 t2 : Nat) :
    (mkBookingRequestRow ins n1 t1).status = "pending" ∧
    (mkBookingRequestRow ins n1 t1).status ∈ bookingRequestStatuses ∧
    (mkCallRow rid cins n2 t2).outcome = none ∧
    nonTerminalCall (mkCallRow rid cins n2 t2).status = true := by
  refine ⟨?_, ?_, rfl, rfl⟩
  · simp [mkBookingRequestRow, h]
  · simp [mkBookingRequestRow, h, bookingRequestStatuses]

/-- Witness for the amended C4. -/
theorem insert_defaults_in_documented_sets_w :
    (mkBookingRequestRow { service_type := "dentist" } 8 0).status = "pending" ∧
    (mkBookingRequestRow { service_type := "dentist" } 8 0).status ∈ bookingRequestStatuses ∧
    (mkCallRow 3 {} 9 0).outcome = none ∧
    nonTerminalCall (mkCallRow 3 {} 9 0).status = true :=
  insert_defaults_in_documented_sets { service_type := "dentist" } rfl 3 {} 8 0 9 0

/-- C6: a submission with an empty service type is rejected synchronously:
the error is set and no fetch is issued at all, so no booking request is
created and none is left in status calling. -/
theorem empty_service_type_rejected (serviceType : String)
    (startResp : Option BookingStartResponse) (callOk : Bool)
    (h : serviceType = "") :
    handleSubmit serviceType startResp callOk =
      { error := some "Please select a service type", requests := [],
        navigatedTo := none } := by
  subst h
  simp [handleSubmit]

/-- Witness for C6. -/
theorem empty_service_type_rejected_w :
    handleSubmit "" (some { id := "r1" }) true =
      { error := some "Please select a service type", requests := [],
        navigatedTo := none } :=
  empty_service_type_rejected "" (some { id := "r1" }) true rfl

/-- C7: a fresh insert that does not set status stores the row under the new
id with status pending, and the client reads the returned id to issue the
call-initiation request for exactly that id. -/
theorem create_request_pending_drives_call (db : DB) (ins : BookingRequestInsert)
    (newId now : Nat) (h : ins.status = none)
    (serviceType : String) (hs : serviceType ≠ "")
    (resp : BookingStartResponse) (callOk : Bool) :
    (∃ r ∈ (insertBookingRequest db ins newId now).booking_requests,
      r.id = newId ∧ r.status = "pending") ∧
    (handleSubmit serviceType (some resp) callOk).requests =
      [bookingStartUrl, "/api/booking/" ++ resp.id ++ "/call"] := by
  constructor
  · refine ⟨mkBookingRequestRow ins newId now, ?_, rfl, ?_⟩
    · simp [insertBookingRequest]
    · simp [mkBookingRequestRow, h]
  · cases callOk <;> simp [handleSubmit, hs]

/-- Witness for C7. -/
theorem create_request_pending_drives_call_w :
    (∃ r ∈ (insertBookingRequest exDB { service_type := "dentist" } 8 0).booking_requests,
      r.id = 8 ∧ r.status = "pending") ∧
    (handleSubmit "dentist" (some { id := "r1" }) true).requests =
      [bookingStartUrl, "/api/booking/" ++ "r1" ++ "/call"] :=
  create_request_pending_drives_call exDB { service_type := "dentist" } 8 0 rfl
    "dentist" (by decide) { id := "r1" } true

/-- C8: the polling loop stops exactly when the fetch failed, the payload
carries a booking, or the payload status is completed; a payload with
status failed and no booking does not stop the loop. -/
theorem polling_stop_characterization (r : Option BookingStatusPayload) :
    (fetchShouldStop r = true ↔
      r = none ∨ ∃ d, r = some d ∧ (d.booking.isSome = true ∨ d.status = "completed")) ∧
    (∀ d, r = some d → d.status = "failed" → d.booking = none →
      fetchShouldStop r = false) := by
  constructor
  · cases r with
    | none => simp [fetchShouldStop]
    | some d => simp [fetchShouldStop]
  · rintro d rfl h1 h2
    simp [fetchShouldStop, h1, h2]

/-- Witness for C8: a failed status with no booking keeps polling. -/
theorem polling_stop_characterization_w :
    fetchShouldStop (some exFailedPayload) = false :=
  (polling_stop_characterization (some exFailedPayload)).2 exFailedPayload rfl rfl rfl

theorem statusDisplayGet_unknown (s : String) (h : s ∉ callStatuses) :
    statusDisplayGet s = none := by
  simp [callStatuses] at h
  obtain ⟨h1, h2, h3, h4, h5, h6⟩ := h
  have e1 : (("pending" : String) == s) = false := beq_eq_false_iff_ne.mpr (Ne.symm h1)
  have e2 : (("ringing" : String) == s) = false := beq_eq_false_iff_ne.mpr (Ne.symm h2)
  have e3 : (("in_progress" : String) == s) = false := beq_eq_false_iff_ne.mpr (Ne.symm h3)
  have e4 : (("completed" : String) == s) = false := beq_eq_false_iff_ne.mpr (Ne.symm h4)
  have e5 : (("failed" : String) == s) = false := beq_eq_false_iff_ne.mpr (Ne.symm h5)
  have e6 : (("no_answer" : String) == s) = false := beq_eq_false_iff_ne.mpr (Ne.symm h6)
  simp [statusDisplayGet, STATUS_DISPLAY, List.find?, e1, e2, e3, e4, e5, e6]

/-- C9: the display lookup resolves every status: each of the six known
statuses maps to its own entry, an unknown status on the current call falls
back to the pending entry, and so does the absence of any call. -/
theorem status_display_total (s : String) (c : ClientCall)
    (p : BookingStatusPayload) :
    statusDisplayGet "pending" = some pendingDisplay ∧
    statusDisplayGet "ringing" =
      some { label := "Ringing...", color := "text-yellow-500", icon := "" } ∧
    statusDisplayGet "in_progress" =
      some { label := "Call in progress", color := "text-blue-500", icon := "" } ∧
    statusDisplayGet "completed" =
      some { label := "Call completed", color := "text-green-500", icon := "" } ∧
    statusDisplayGet "failed" =
      some { label := "Call failed", color := "text-destructive", icon := "" } ∧
    statusDisplayGet "no_answer" =
      some { label := "No answer", color := "text-orange-500", icon := "" } ∧
    (s ∉ callStatuses → c.status = s → p.calls = [c] →
      callStatusOf (some p) = pendingDisplay) ∧
    callStatusOf none = pendingDisplay := by
  refine ⟨rfl, rfl, rfl, rfl, rfl, rfl, ?_, rfl⟩
  intro hs hc hp
  simp [callStatusOf, currentCallOf, hp, hc, statusDisplayGet_unknown s hs]

/-- Witness for C9 at the unknown status voicemail. -/
theorem status_display_total_w :
    callStatusOf (some exVoicemailPayload) = pendingDisplay :=
  (status_display_total "voicemail" exVoicemailCall
      exVoicemailPayload).2.2.2.2.2.2.1 (by decide) rfl rfl

/-- C10: one toggle removes every occurrence of a present element and
appends an absent one at the end, and a double toggle restores membership;
the time toggle is the same function as the date toggle. -/
theorem toggle_flips_membership (x : String) (l : List String) :
    (x ∈ l → handleDateToggle x l = l.filter (fun d => d != x) ∧
      x ∉ handleDateToggle x l) ∧
    (x ∉ l → handleDateToggle x l = l ++ [x]) ∧
    (x ∈ handleDateToggle x (handleDateToggle x l) ↔ x ∈ l) ∧
    handleTimeToggle x l = handleDateToggle x l := by
  refine ⟨?_, ?_, ?_, rfl⟩
  · intro hx
    constructor
    · simp [handleDateToggle, hx]
    · simp [handleDateToggle, hx, List.mem_filter]
  · intro hx
    simp [handleDateToggle, hx]
  · by_cases hx : x ∈ l
    · simp [handleDateToggle, hx, List.mem_filter]
    · simp [handleDateToggle, hx, List.mem_filter]

/-- Witness for C10 on a two-element list. -/
theorem toggle_flips_membership_w :
    handleDateToggle "morning" ["morning", "evening"] =
        (["morning", "evening"] : List String).filter (fun d => d != "morning") ∧
      "morning" ∉ handleDateToggle "morning" ["morning", "evening"] :=
  (toggle_flips_membership "morning" ["morning", "evening"]).1 (by decide)

end StackScout
